import Mathlib

/-!
Verification development for the AI-Mediator government-ID classification
and verification engine.

The repository's decision core lives in two near-identical Python copies:
`src/OCR/app/services/{validation_service,classification_service}.py`
(the richer variant) and
`src/services/ocr-service/app/services/{validation_service,classification_service}.py`.
Both are embedded below.  Python floats are modelled as exact rationals
(`ℚ`); Python `re.search` is modelled by a small backtracking matcher:
every quantifier occurring in the repository's patterns applies to a
single character class, so the regex syntax carries class-level
quantifiers only.  Matching follows Python semantics: leftmost starting
position wins, greedy quantifiers prefer the longest extension, and the
first alternative of an alternation is preferred.  `str.lower` and the
character classes are modelled over ASCII, which covers every pattern and
input the code manipulates.
-/

attribute [local semireducible] Rat.add Rat.mul Rat.inv Rat.sub Rat.ofScientific

namespace AIMediator

/-- Regular-expression syntax.  `clsRep p m e` is the greedy counted
repetition `p{m, m+e}`; `clsOpt`/`clsStar` are greedy `p?`/`p*`.
Fixed-count repetitions such as `[0-9]{4}` are transcribed as the
corresponding explicit sequence of classes. -/
inductive RE : Type
  | eps : RE
  | cls (p : Char → Bool) : RE
  | seq (a b : RE) : RE
  | alt (a b : RE) : RE
  | clsOpt (p : Char → Bool) : RE
  | clsStar (p : Char → Bool) : RE
  | clsRep (p : Char → Bool) (mand ext : Nat) : RE

/-- Greedy Kleene star of a character class, in continuation-passing
style: consume as many `p`-characters as possible, backtracking to
shorter runs (and finally to none) if the continuation fails. -/
def starG (p : Char → Bool) : List Char → (List Char → Option (List Char)) → Option (List Char)
  | [], k => k []
  | c :: s, k => if p c then (starG p s k).orElse (fun _ => k (c :: s)) else k (c :: s)

/-- Mandatory part of a counted repetition: consume exactly `m`
`p`-characters or fail. -/
def repMand (p : Char → Bool) : Nat → List Char → (List Char → Option (List Char)) → Option (List Char)
  | 0, s, k => k s
  | _ + 1, [], _ => none
  | m + 1, c :: s, k => if p c then repMand p m s k else none

/-- Optional extension of a counted repetition: consume up to `e` more
`p`-characters, greedily, backtracking like `starG`. -/
def repExt (p : Char → Bool) : Nat → List Char → (List Char → Option (List Char)) → Option (List Char)
  | 0, s, k => k s
  | _ + 1, [], k => k []
  | e + 1, c :: s, k => if p c then (repExt p e s k).orElse (fun _ => k (c :: s)) else k (c :: s)

/-- Backtracking matcher in continuation-passing style.  `mtch r s k`
tries to match `r` against a prefix of `s` and passes the remaining
suffix to `k`; the first success in Python's preference order is
returned. -/
def mtch : RE → List Char → (List Char → Option (List Char)) → Option (List Char)
  | .eps, s, k => k s
  | .cls _, [], _ => none
  | .cls p, c :: s, k => if p c then k s else none
  | .seq a b, s, k => mtch a s (fun s2 => mtch b s2 k)
  | .alt a b, s, k => (mtch a s k).orElse (fun _ => mtch b s k)
  | .clsOpt _, [], k => k []
  | .clsOpt p, c :: s, k => if p c then (k s).orElse (fun _ => k (c :: s)) else k (c :: s)
  | .clsStar p, s, k => starG p s k
  | .clsRep p m e, s, k => repMand p m s (fun s2 => repExt p e s2 k)

/-- Run the matcher anchored at the start of `s`; on success return the
suffix left over after the match. -/
def matchRun (r : RE) (s : List Char) : Option (List Char) := mtch r s some

/-- Python `re.search`: try every starting position from the left; at the
first position where the anchored match succeeds, return the matched
substring (group 0). -/
def reSearch (r : RE) : List Char → Option (List Char)
  | [] => match matchRun r [] with
      | some _ => some []
      | none => none
  | c :: s =>
      match matchRun r (c :: s) with
      | some rest => some ((c :: s).take ((c :: s).length - rest.length))
      | none => reSearch r s

/-- Source `[0-9]`. -/
def digitC (c : Char) : Bool := '0' ≤ c && c ≤ '9'

/-- Source `[A-Z]`. -/
def upperC (c : Char) : Bool := 'A' ≤ c && c ≤ 'Z'

/-- Source `[a-z]`. -/
def lowAZ (c : Char) : Bool := 'a' ≤ c && c ≤ 'z'

/-- Source `[A-Z]` under `re.IGNORECASE`. -/
def alphaCI (c : Char) : Bool := upperC c || lowAZ c

/-- Source `\s` (ASCII whitespace, as in Python's `\s` on ASCII text). -/
def wsC (c : Char) : Bool :=
  c == ' ' || c == '\t' || c == '\n' || c == '\r' || c == '\x0B' || c == '\x0C'

/-- Source `[-\s]`. -/
def dashWsC (c : Char) : Bool := c == '-' || wsC c

/-- A literal character. -/
def chC (a : Char) (c : Char) : Bool := c == a

/-- A literal character under `re.IGNORECASE` (the source literal is
given in lowercase). -/
def chCI (a : Char) (c : Char) : Bool := c == a || c == a.toUpper

/-- Sequence a list of regexes. -/
def reSeq (l : List RE) : RE := l.foldr RE.seq RE.eps

/-- A literal string. -/
def reLit (s : String) : RE := reSeq (s.data.map (fun c => RE.cls (chC c)))

/-- A literal string under `re.IGNORECASE` (given in lowercase). -/
def reLitCI (s : String) : RE := reSeq (s.data.map (fun c => RE.cls (chCI c)))

/-- Source `\s*`. -/
def wsStar : RE := RE.clsStar wsC

/-- Keyword pattern built from words joined by `\s*`, as in the source
keyword tables (e.g. `date\s*of\s*birth`). -/
def kwWords : List String → RE
  | [] => RE.eps
  | w :: rest => rest.foldl (fun acc w2 => RE.seq acc (RE.seq wsStar (reLit w2))) (reLit w)

/-- Source `[cs]` as it occurs in `licen[cs]e`. -/
def csC : RE := RE.cls (fun c => c == 'c' || c == 's')

/-- Source `[0-9]{4}`, expanded. -/
def dig4 : List RE := [RE.cls digitC, RE.cls digitC, RE.cls digitC, RE.cls digitC]

/-- Source `AADHAAR_PATTERN = r'[0-9]{4}\s?[0-9]{4}\s?[0-9]{4}'` (identical in
both copies). -/
def AADHAAR_PATTERN : RE :=
  reSeq (dig4 ++ [RE.clsOpt wsC] ++ dig4 ++ [RE.clsOpt wsC] ++ dig4)

/-- Source `PAN_PATTERN = r'[A-Z]{5}[0-9]{4}[A-Z]'` (identical in both copies). -/
def PAN_PATTERN : RE :=
  reSeq ([RE.cls upperC, RE.cls upperC, RE.cls upperC, RE.cls upperC, RE.cls upperC]
         ++ dig4 ++ [RE.cls upperC])

/-- Source `DL_PATTERN = r'(?:DL|[A-Z]{2})[-\s]?[0-9]{2}[-\s]?[0-9]{4,19}|[A-Z]{2}[0-9]{2}[0-9]{4,19}'`
from `src/OCR`, searched with `re.IGNORECASE` (hence the
case-insensitive classes).  `[0-9]{4,19}` is `clsRep digitC 4 15`:
four mandatory digits and up to fifteen more, greedily. -/
def DL_PATTERN : RE :=
  RE.alt
    (reSeq [RE.alt (reLitCI "dl") (reSeq [RE.cls alphaCI, RE.cls alphaCI]),
            RE.clsOpt dashWsC, RE.cls digitC, RE.cls digitC, RE.clsOpt dashWsC,
            RE.clsRep digitC 4 15])
    (reSeq [RE.cls alphaCI, RE.cls alphaCI, RE.cls digitC, RE.cls digitC,
            RE.clsRep digitC 4 15])

/-- Source `DL_PATTERN = r'[A-Z]{2}[-\s]?[0-9]{2}[-\s]?[0-9]{4,19}'` from
`src/services/ocr-service`, searched case-sensitively. -/
def DL_PATTERN2 : RE :=
  reSeq [RE.cls upperC, RE.cls upperC, RE.clsOpt dashWsC, RE.cls digitC,
         RE.cls digitC, RE.clsOpt dashWsC, RE.clsRep digitC 4 15]

/-- Source `DocumentType` from `src/OCR/app/schemas/document.py`. -/
inductive DocumentType : Type
  | aadhaar
  | pan
  | driving_license
  | unknown
deriving DecidableEq, Repr

/-- Source `VerificationStatus` from `src/OCR/app/schemas/document.py`. -/
inductive VerificationStatus : Type
  | verified
  | rejected
deriving DecidableEq, Repr

/-- The failure-reason strings built by `classify_and_verify`, modelled
structurally: `unidentified` stands for the fixed string
"Could not identify document type. No supported ID keywords or patterns
found.", and `tooLow score dtype` for the f-string
"Confidence score (round(final_score, 2)) too low for dtype.value.
Validation failed." with its two interpolated values. -/
inductive Reason : Type
  | unidentified
  | tooLow (score : ℚ) (dtype : DocumentType)
deriving DecidableEq, Repr

/-- Source `VerificationResponse` from `src/OCR/app/schemas/document.py`.
`extracted_fields` is the Python dict, which holds at most the
"id_number" entry. -/
structure VerificationResponse : Type where
  status : VerificationStatus
  detected_document_type : DocumentType
  confidence_score : ℚ
  failure_reason : Option Reason
  extracted_fields : List (String × String)
  raw_ocr_text : Option String
deriving DecidableEq, Repr

/-- Python `text.lower()` (ASCII). -/
def lowerStr (s : String) : List Char := s.data.map Char.toLower

/-- Does `needle` occur at the start of the second list?  (Used for
Python's substring operator `in`.) -/
def preMatch : List Char → List Char → Bool
  | [], _ => true
  | _ :: _, [] => false
  | a :: as, b :: bs => a == b && preMatch as bs

/-- Python's substring test `needle in hay`. -/
def subMatch (needle : List Char) : List Char → Bool
  | [] => preMatch needle []
  | hay@(_ :: rest) => preMatch needle hay || subMatch needle rest

/-- Source `father's\s*name` (the apostrophe written via its code point). -/
def fatherSName : RE :=
  reSeq [reLit "father", RE.cls (chC (Char.ofNat 39)), reLit "s", wsStar, reLit "name"]

/-- Source `KEYWORD_PATTERNS[DocumentType.AADHAAR]` (identical in both copies). -/
def aadhaarKws : List RE :=
  [reLit "aadhaar", kwWords ["unique", "identification", "authority"], reLit "uidai",
   kwWords ["government", "of", "india"], kwWords ["mera", "aadhaar"],
   reLit "dob", kwWords ["date", "of", "birth"], reLit "yob",
   kwWords ["year", "of", "birth"], reLit "bale", reLit "female", reLit "male"]

/-- Source `KEYWORD_PATTERNS[DocumentType.PAN]` (identical in both copies). -/
def panKws : List RE :=
  [kwWords ["permanent", "account", "number"], kwWords ["income", "tax", "department"],
   kwWords ["govt", "of", "india"], kwWords ["date", "of", "birth"], fatherSName]

/-- Source `KEYWORD_PATTERNS[DocumentType.DRIVING_LICENCE]` from `src/OCR`. -/
def dlKws : List RE :=
  [reSeq [reLit "driving", wsStar, reLit "licen", csC, reLit "e"],
   reSeq [reLit "driving", wsStar, reLit "licen", csC],
   kwWords ["union", "of", "india"], kwWords ["transport", "department"],
   kwWords ["valid", "till"], kwWords ["issued", "on"],
   kwWords ["motor", "vehicle"], reLit "transport",
   kwWords ["license", "to", "drive"], kwWords ["license", "no"],
   kwWords ["dl", "no"], kwWords ["dl", "number"], reLit "driving",
   reSeq [reLit "licen", csC, reLit "e"], kwWords ["vehicle", "class"],
   kwWords ["issuing", "authority"], reLit "rto",
   kwWords ["regional", "transport"], kwWords ["motor", "driving"]]

/-- Source `KEYWORD_PATTERNS[DocumentType.DRIVING_LICENCE]` from
`src/services/ocr-service`. -/
def dlKws2 : List RE :=
  [kwWords ["driving", "licence"], kwWords ["driving", "license"],
   kwWords ["union", "of", "india"], kwWords ["transport", "department"],
   kwWords ["valid", "till"], kwWords ["issued", "on"]]

/-- Source `KEYWORD_PATTERNS.get(doc_type, [])` from `src/OCR`. -/
def KEYWORD_PATTERNS : DocumentType → List RE
  | .aadhaar => aadhaarKws
  | .pan => panKws
  | .driving_license => dlKws
  | .unknown => []

/-- Source `KEYWORD_PATTERNS.get(doc_type, [])` from `src/services/ocr-service`. -/
def KEYWORD_PATTERNS2 : DocumentType → List RE
  | .aadhaar => aadhaarKws
  | .pan => panKws
  | .driving_license => dlKws2
  | .unknown => []

/-- Source `found_keywords` in `calculate_scoring` (`src/OCR`): the number of
keyword patterns of the type that match somewhere in the lowercased
text. -/
def foundKeywords (text : String) (t : DocumentType) : Nat :=
  ((KEYWORD_PATTERNS t).filter (fun p => (reSearch p (lowerStr text)).isSome)).length

/-- Source `calculate_scoring` from `src/OCR/app/services/validation_service.py`:
`score = 0.0`, `+= 0.4` when at least one keyword hit, `+= 0.2` more when
at least two. -/
def calculate_scoring (text : String) (t : DocumentType) : ℚ :=
  (if 1 ≤ foundKeywords text t then 0.4 else 0) +
  (if 2 ≤ foundKeywords text t then 0.2 else 0)

/-- Source `found_keywords` for the `src/services/ocr-service` copy. -/
def foundKeywords2 (text : String) (t : DocumentType) : Nat :=
  ((KEYWORD_PATTERNS2 t).filter (fun p => (reSearch p (lowerStr text)).isSome)).length

/-- Source `calculate_scoring` from
`src/services/ocr-service/app/services/validation_service.py`. -/
def calculate_scoring2 (text : String) (t : DocumentType) : ℚ :=
  (if 1 ≤ foundKeywords2 text t then 0.4 else 0) +
  (if 2 ≤ foundKeywords2 text t then 0.2 else 0)

/-- Source `validate_aadhaar` (identical in both copies): search the Aadhaar
pattern; on a match return `(True, match.group(0), 1.0)`, otherwise
`(False, None, 0.0)`. -/
def validate_aadhaar (text : String) : Bool × Option String × ℚ :=
  match reSearch AADHAAR_PATTERN text.data with
  | some m => (true, some (String.mk m), 1)
  | none => (false, none, 0)

/-- Source `validate_pan` (identical in both copies). -/
def validate_pan (text : String) : Bool × Option String × ℚ :=
  match reSearch PAN_PATTERN text.data with
  | some m => (true, some (String.mk m), 1)
  | none => (false, none, 0)

/-- Source `dl_keyword_indicators` from `validate_dl` in `src/OCR`. -/
def dl_keyword_indicators : List RE :=
  [reSeq [reLit "driving", wsStar, reLit "licen", csC, reLit "e"],
   reSeq [reLit "driving", wsStar, reLit "licen", csC],
   kwWords ["motor", "vehicle"], kwWords ["license", "to", "drive"],
   kwWords ["transport", "department"], kwWords ["dl", "no"],
   kwWords ["regional", "transport"], kwWords ["motor", "driving"],
   kwWords ["vehicle", "class"]]

/-- The context words of `validate_dl` in `src/OCR`, tested with
Python's substring operator on the lowercased text. -/
def dlContextWords : List String :=
  ["driving", "license", "licence", "transport", "vehicle", "dl"]

/-- Source `validate_dl` from `src/OCR/app/services/validation_service.py`:
keyword gate over `dl_keyword_indicators`, then the (IGNORECASE) numeric
search; 0.95 with gate, 0.85 with a context word, 0.7 bare; without a
numeric match, 0.6 with at least two distinct indicator hits, else no
match. -/
def validate_dl (text : String) : Bool × Option String × ℚ :=
  let tl := lowerStr text
  let keyword_found := dl_keyword_indicators.any (fun p => (reSearch p tl).isSome)
  match reSearch DL_PATTERN text.data with
  | some m =>
      if keyword_found then (true, some (String.mk m), 0.95)
      else if dlContextWords.any (fun w => subMatch w.data tl) then
        (true, some (String.mk m), 0.85)
      else (true, some (String.mk m), 0.7)
  | none =>
      if keyword_found &&
          2 ≤ (dl_keyword_indicators.filter (fun p => (reSearch p tl).isSome)).length then
        (true, none, 0.6)
      else (false, none, 0)

/-- Source `validate_dl` from
`src/services/ocr-service/app/services/validation_service.py`: only the
(case-sensitive) numeric search, with 0.8 when "DL", "Licences" or
"Driving" occurs in the raw text and 0.6 otherwise. -/
def validate_dl2 (text : String) : Bool × Option String × ℚ :=
  match reSearch DL_PATTERN2 text.data with
  | some m =>
      if subMatch "DL".data text.data || subMatch "Licences".data text.data ||
          subMatch "Driving".data text.data then
        (true, some (String.mk m), 0.8)
      else (true, some (String.mk m), 0.6)
  | none => (false, none, 0)

/-- Source `Settings.CONFIDENCE_THRESHOLD_HIGH` from `src/OCR/app/core/config.py`. -/
def CONFIDENCE_THRESHOLD_HIGH : ℚ := 0.85

/-- Source `Settings.CONFIDENCE_THRESHOLD_LOW` from `src/OCR/app/core/config.py`. -/
def CONFIDENCE_THRESHOLD_LOW : ℚ := 0.60

/-- A candidate as built by `classify_and_verify` in `src/OCR`:
`(doc_type, number, base_score)`. -/
abbrev Cand : Type := DocumentType × Option String × ℚ

/-- Python's `max(xs, key=f)` folded over the tail: the current best is
replaced only when the new key is strictly greater, so the first maximal
element wins ties. -/
def pyMaxBy {α : Type} (f : α → ℚ) (x : α) : List α → α
  | [] => x
  | y :: ys => pyMaxBy f (if f x < f y then y else x) ys

/-- The candidate list built by `classify_and_verify` in `src/OCR`:
Aadhaar, then PAN, then DL, each appended when its matcher fired. -/
def candidatesOf (text : String) : List Cand :=
  (if (validate_aadhaar text).1 then
    [(DocumentType.aadhaar, (validate_aadhaar text).2.1, (validate_aadhaar text).2.2)]
  else []) ++
  (if (validate_pan text).1 then
    [(DocumentType.pan, (validate_pan text).2.1, (validate_pan text).2.2)]
  else []) ++
  (if (validate_dl text).1 then
    [(DocumentType.driving_license, (validate_dl text).2.1, (validate_dl text).2.2)]
  else [])

/-- The disambiguation key of `classify_and_verify` in `src/OCR`:
`total_score = (base_score * 0.6) + (keyword_score * 0.4)`. -/
def totalKey (text : String) (c : Cand) : ℚ :=
  c.2.2 * 0.6 + calculate_scoring text c.1 * 0.4

/-- The keyword fallback of both engine copies:
`max(scores.items(), key=lambda x: x[1])` over the insertion order
Aadhaar, PAN, DL (first maximal wins). -/
def fallbackPick (text : String) : DocumentType × ℚ :=
  pyMaxBy (fun x => x.2)
    (DocumentType.aadhaar, calculate_scoring text DocumentType.aadhaar)
    [(DocumentType.pan, calculate_scoring text DocumentType.pan),
     (DocumentType.driving_license, calculate_scoring text DocumentType.driving_license)]

/-- Steps 1-3 of `classify_and_verify` in `src/OCR` (candidate
collection, disambiguation, keyword fallback), producing
`(detected_type, id_number, base_confidence)`.  With several candidates
the code maximizes `total_score` over the scored 4-tuples and keeps the
first three components; with one candidate it adopts it; with none it
runs the keyword fallback (adopting the best type with base 0.0 when its
score is positive). -/
def classifyCore (text : String) : Cand :=
  match candidatesOf text with
  | [] =>
      let best := fallbackPick text
      if 0 < best.2 then (best.1, none, 0) else (DocumentType.unknown, none, 0)
  | [c] => c
  | c :: c2 :: rest => pyMaxBy (totalKey text) c (c2 :: rest)

/-- Source `detected_type` after steps 1-3 (`src/OCR`). -/
def detectedType (text : String) : DocumentType := (classifyCore text).1

/-- Source `id_number` after steps 1-3 (`src/OCR`). -/
def extractedId (text : String) : Option String := (classifyCore text).2.1

/-- Source `base_confidence` after steps 1-3 (`src/OCR`). -/
def baseConfidence (text : String) : ℚ := (classifyCore text).2.2

/-- The confidence blend of both engine copies:
`final_score = base_confidence * 0.6 + keyword_score`, boosted by `+0.2`
(capped at 0.99) when `base_confidence >= 0.8 and keyword_score > 0`,
then capped at 0.99. -/
def blend (b kw : ℚ) : ℚ :=
  let f := b * 0.6 + kw
  let f2 := if 0.8 ≤ b ∧ 0 < kw then min (f + 0.2) 0.99 else f
  min f2 0.99

/-- Source `final_score` in `classify_and_verify` (`src/OCR`): `0.0` when the
detected type is UNKNOWN, the blend otherwise. -/
def finalScore (text : String) : ℚ :=
  if detectedType text = DocumentType.unknown then 0
  else blend (baseConfidence text) (calculate_scoring text (detectedType text))

/-- Python `round(q, 2)` on the reachable scores (all exact multiples of
0.01, where rounding mode is irrelevant). -/
def round2 (q : ℚ) : ℚ := ((round (q * 100) : ℤ) : ℚ) / 100

/-- The threshold decision shared by both engine copies: UNKNOWN is
rejected with the fixed reason; otherwise `final >= HIGH` and
`final >= LOW` both verify, and only `final < LOW` rejects, with the
reason interpolating `round(final_score, 2)` and the type. -/
def thresholdDecision (t : DocumentType) (fs : ℚ) : VerificationStatus × Option Reason :=
  if t = DocumentType.unknown then (.rejected, some .unidentified)
  else if CONFIDENCE_THRESHOLD_HIGH ≤ fs then (.verified, none)
  else if CONFIDENCE_THRESHOLD_LOW ≤ fs then (.verified, none)
  else (.rejected, some (.tooLow (round2 fs) t))

/-- Source `extracted_fields`: `{"id_number": id_number}` when `id_number` is
truthy (non-`None` and non-empty), else the empty dict. -/
def extractedFields (idn : Option String) : List (String × String) :=
  match idn with
  | some s => if s = "" then [] else [("id_number", s)]
  | none => []

/-- Source `classify_and_verify` from
`src/OCR/app/services/classification_service.py`. -/
def classify_and_verify (text : String) : VerificationResponse :=
  { status := (thresholdDecision (detectedType text) (finalScore text)).1
    detected_document_type := detectedType text
    confidence_score := round2 (finalScore text)
    failure_reason := (thresholdDecision (detectedType text) (finalScore text)).2
    extracted_fields := extractedFields (extractedId text)
    raw_ocr_text := some text }

/-- Steps 1-2 of `classify_and_verify` in `src/services/ocr-service`:
the matchers short-circuit (Aadhaar, else PAN, else DL), then the same
keyword fallback with this copy's scoring. -/
def classifyCore2 (text : String) : Cand :=
  if (validate_aadhaar text).1 then
    (DocumentType.aadhaar, (validate_aadhaar text).2.1, (validate_aadhaar text).2.2)
  else if (validate_pan text).1 then
    (DocumentType.pan, (validate_pan text).2.1, (validate_pan text).2.2)
  else if (validate_dl2 text).1 then
    (DocumentType.driving_license, (validate_dl2 text).2.1, (validate_dl2 text).2.2)
  else
    let best := pyMaxBy (fun x => x.2)
      (DocumentType.aadhaar, calculate_scoring2 text DocumentType.aadhaar)
      [(DocumentType.pan, calculate_scoring2 text DocumentType.pan),
       (DocumentType.driving_license, calculate_scoring2 text DocumentType.driving_license)]
    if 0 < best.2 then (best.1, none, 0) else (DocumentType.unknown, none, 0)

/-- Source `final_score` for the `src/services/ocr-service` copy. -/
def finalScore2 (text : String) : ℚ :=
  if (classifyCore2 text).1 = DocumentType.unknown then 0
  else blend (classifyCore2 text).2.2 (calculate_scoring2 text (classifyCore2 text).1)

/-- Source `classify_and_verify` from
`src/services/ocr-service/app/services/classification_service.py`. -/
def classify_and_verify2 (text : String) : VerificationResponse :=
  { status := (thresholdDecision (classifyCore2 text).1 (finalScore2 text)).1
    detected_document_type := (classifyCore2 text).1
    confidence_score := round2 (finalScore2 text)
    failure_reason := (thresholdDecision (classifyCore2 text).1 (finalScore2 text)).2
    extracted_fields := extractedFields (classifyCore2 text).2.1
    raw_ocr_text := some text }

/-- Modelled from the spec: the driving-licence matcher's decision table
as section 4.1 states it, with the first matching row winning — numeric
match with keyword gate 0.95; numeric match with a context word 0.85;
bare numeric match 0.70; no numeric match but at least two distinct
indicator hits 0.60 with null identifier; otherwise no match. -/
def dl_decision_table (text : String) : Bool × Option String × ℚ :=
  let tl := lowerStr text
  let hits := (dl_keyword_indicators.filter (fun p => (reSearch p tl).isSome)).length
  match reSearch DL_PATTERN text.data with
  | some m =>
      if 1 ≤ hits then (true, some (String.mk m), 0.95)
      else if dlContextWords.any (fun w => subMatch w.data tl) then
        (true, some (String.mk m), 0.85)
      else (true, some (String.mk m), 0.7)
  | none =>
      if 2 ≤ hits then (true, none, 0.6) else (false, none, 0)

/-- Scores whose doubled-percent form is integral: every value reachable
by the engine's arithmetic is an exact multiple of 1/100. -/
def Centile (q : ℚ) : Prop := ∃ z : ℤ, q = (z : ℚ) / 100

/-- Source `pyMaxBy` returns the first element attaining the maximum key: every
element's key is bounded by the result's, and everything strictly before
the result's position has a strictly smaller key. -/
theorem pyMaxBy_spec {α : Type} (f : α → ℚ) (x : α) (xs : List α) :
    (∀ y ∈ x :: xs, f y ≤ f (pyMaxBy f x xs)) ∧
      ∃ pre post, x :: xs = pre ++ pyMaxBy f x xs :: post ∧
        ∀ y ∈ pre, f y < f (pyMaxBy f x xs) := by
  induction xs generalizing x with
  | nil =>
    refine ⟨?_, [], [], rfl, by simp⟩
    intro y hy
    simp only [pyMaxBy, List.mem_singleton] at hy ⊢
    exact le_of_eq (congrArg f hy)
  | cons y ys ih =>
    by_cases h : f x < f y
    · have hx : pyMaxBy f x (y :: ys) = pyMaxBy f y ys := by
        simp [pyMaxBy, if_pos h]
      obtain ⟨hall, pre, post, hdec, hpre⟩ := ih y
      have hy_le : f y ≤ f (pyMaxBy f y ys) := hall y (List.mem_cons_self y ys)
      refine ⟨?_, x :: pre, post, ?_, ?_⟩
      · intro z hz
        rw [hx]
        rcases List.mem_cons.mp hz with rfl | hz2
        · exact le_of_lt (lt_of_lt_of_le h hy_le)
        · exact hall z hz2
      · rw [hx, List.cons_append, ← hdec]
      · intro z hz
        rw [hx]
        rcases List.mem_cons.mp hz with rfl | hz2
        · exact lt_of_lt_of_le h hy_le
        · exact hpre z hz2
    · have hx : pyMaxBy f x (y :: ys) = pyMaxBy f x ys := by
        simp [pyMaxBy, if_neg h]
      obtain ⟨hall, pre, post, hdec, hpre⟩ := ih x
      have hyx : f y ≤ f x := le_of_not_lt h
      cases pre with
      | nil =>
        simp only [List.nil_append] at hdec
        have hx_eq : x = pyMaxBy f x ys := (List.cons.injEq _ _ _ _).mp hdec |>.1
        refine ⟨?_, [], y :: ys, ?_, by simp⟩
        · intro z hz
          rw [hx, ← hx_eq]
          rcases List.mem_cons.mp hz with rfl | hz2
          · exact le_refl _
          · rcases List.mem_cons.mp hz2 with rfl | hz3
            · exact hyx
            · exact hx_eq ▸ hall z (List.mem_cons_of_mem x hz3)
        · rw [List.nil_append, hx, ← hx_eq]
      | cons p ps =>
        simp only [List.cons_append] at hdec
        have hp : p = x := ((List.cons.injEq _ _ _ _).mp hdec).1.symm
        have hys : ys = ps ++ pyMaxBy f x ys :: post := ((List.cons.injEq _ _ _ _).mp hdec).2
        have hx_lt : f x < f (pyMaxBy f x ys) := by
          have := hpre p (List.mem_cons_self p ps)
          rwa [hp] at this
        refine ⟨?_, x :: y :: ps, post, ?_, ?_⟩
        · intro z hz
          rw [hx]
          rcases List.mem_cons.mp hz with rfl | hz2
          · exact le_of_lt hx_lt
          · rcases List.mem_cons.mp hz2 with rfl | hz3
            · exact le_trans hyx (le_of_lt hx_lt)
            · exact hall z (List.mem_cons_of_mem x hz3)
        · rw [hx]
          simp only [List.cons_append]
          exact congrArg (x :: ·) (congrArg (y :: ·) hys)
        · intro z hz
          rw [hx]
          rcases List.mem_cons.mp hz with rfl | hz2
          · exact hx_lt
          · rcases List.mem_cons.mp hz2 with rfl | hz3
            · exact lt_of_le_of_lt hyx hx_lt
            · exact hpre z (hp ▸ List.mem_cons_of_mem p hz3)

/-- The result of `pyMaxBy` is one of the inspected elements. -/
theorem pyMaxBy_mem {α : Type} (f : α → ℚ) (x : α) (xs : List α) :
    pyMaxBy f x xs ∈ x :: xs := by
  obtain ⟨-, pre, post, hdec, -⟩ := pyMaxBy_spec f x xs
  rw [hdec]
  exact List.mem_append.mpr (Or.inr (List.mem_cons_self _ _))

/-- Source `List.any` agrees with a positive filter count. -/
theorem any_iff_filter_pos {α : Type} (l : List α) (p : α → Bool) :
    l.any p = true ↔ 1 ≤ (l.filter p).length := by
  rw [List.any_eq_true]
  constructor
  · rintro ⟨a, ha, hpa⟩
    have hm : a ∈ l.filter p := List.mem_filter.mpr ⟨ha, hpa⟩
    have := List.length_pos.mpr (List.ne_nil_of_mem hm)
    omega
  · intro h
    have hne : l.filter p ≠ [] := by
      intro he
      rw [he] at h
      simp at h
    obtain ⟨a, ha⟩ := List.exists_mem_of_ne_nil _ hne
    obtain ⟨h1, h2⟩ := List.mem_filter.mp ha
    exact ⟨a, h1, h2⟩

/-- A fired Aadhaar matcher reports base confidence 1.0. -/
theorem validate_aadhaar_base (text : String) :
    (validate_aadhaar text).1 = false ∨ (validate_aadhaar text).2.2 = 1 := by
  unfold validate_aadhaar
  cases reSearch AADHAAR_PATTERN text.data <;> simp

/-- A fired PAN matcher reports base confidence 1.0. -/
theorem validate_pan_base (text : String) :
    (validate_pan text).1 = false ∨ (validate_pan text).2.2 = 1 := by
  unfold validate_pan
  cases reSearch PAN_PATTERN text.data <;> simp

/-- A fired DL matcher reports one of the four base confidences. -/
theorem validate_dl_base (text : String) :
    (validate_dl text).1 = false ∨ (validate_dl text).2.2 = 0.95 ∨
      (validate_dl text).2.2 = 0.85 ∨ (validate_dl text).2.2 = 0.7 ∨
      (validate_dl text).2.2 = 0.6 := by
  unfold validate_dl
  dsimp only
  split
  · split
    · simp
    · split <;> simp
  · split <;> simp

/-- Every candidate has a non-UNKNOWN type and one of the matcher base
confidences. -/
theorem mem_candidatesOf (text : String) {c : Cand} (hc : c ∈ candidatesOf text) :
    c.1 ≠ DocumentType.unknown ∧
      (c.2.2 = 1 ∨ c.2.2 = 0.95 ∨ c.2.2 = 0.85 ∨ c.2.2 = 0.7 ∨ c.2.2 = 0.6) := by
  unfold candidatesOf at hc
  rcases List.mem_append.mp hc with h12 | h3
  on_goal 1 => rcases List.mem_append.mp h12 with h1 | h2
  · split at h1
    · rw [List.mem_singleton] at h1
      subst h1
      refine ⟨by simp, Or.inl ?_⟩
      rcases validate_aadhaar_base text with hf | hb
      · simp_all
      · exact hb
    · simp at h1
  · split at h2
    · rw [List.mem_singleton] at h2
      subst h2
      refine ⟨by simp, Or.inl ?_⟩
      rcases validate_pan_base text with hf | hb
      · simp_all
      · exact hb
    · simp at h2
  · split at h3
    · rw [List.mem_singleton] at h3
      subst h3
      refine ⟨by simp, ?_⟩
      rcases validate_dl_base text with hf | hb
      · simp_all
      · exact Or.inr hb
    · simp at h3

/-- The fallback picks one of the three real document types. -/
theorem fallbackPick_type (text : String) :
    (fallbackPick text).1 = DocumentType.aadhaar ∨
      (fallbackPick text).1 = DocumentType.pan ∨
      (fallbackPick text).1 = DocumentType.driving_license := by
  have h := pyMaxBy_mem (fun x : DocumentType × ℚ => x.2)
    (DocumentType.aadhaar, calculate_scoring text DocumentType.aadhaar)
    [(DocumentType.pan, calculate_scoring text DocumentType.pan),
     (DocumentType.driving_license, calculate_scoring text DocumentType.driving_license)]
  simp only [List.mem_cons, List.not_mem_nil, or_false] at h
  unfold fallbackPick
  rcases h with h | h | h <;> rw [h] <;> simp

/-- The fallback's best score is the keyword score of the type it picks. -/
theorem fallbackPick_score (text : String) :
    (fallbackPick text).2 = calculate_scoring text (fallbackPick text).1 := by
  have h := pyMaxBy_mem (fun x : DocumentType × ℚ => x.2)
    (DocumentType.aadhaar, calculate_scoring text DocumentType.aadhaar)
    [(DocumentType.pan, calculate_scoring text DocumentType.pan),
     (DocumentType.driving_license, calculate_scoring text DocumentType.driving_license)]
  simp only [List.mem_cons, List.not_mem_nil, or_false] at h
  unfold fallbackPick
  rcases h with h | h | h <;> rw [h]

/-- If the engine ends up with UNKNOWN, steps 1-3 produced the empty
triple: no identifier and base confidence 0. -/
theorem classifyCore_unknown (text : String)
    (h : (classifyCore text).1 = DocumentType.unknown) :
    classifyCore text = (DocumentType.unknown, none, 0) := by
  unfold classifyCore at h ⊢
  revert h
  rcases hm : candidatesOf text with - | ⟨c, - | ⟨c2, r2⟩⟩ <;> intro h
  · dsimp only at h ⊢
    split at h <;> rename_i hbest
    · dsimp only at h
      rcases fallbackPick_type text with ht | ht | ht <;> rw [ht] at h <;> simp at h
    · rw [if_neg hbest]
  · exact absurd h (mem_candidatesOf text (hm.symm ▸ List.mem_cons_self c [])).1
  · have hmem := pyMaxBy_mem (totalKey text) c (c2 :: r2)
    exact absurd h (mem_candidatesOf text (hm.symm ▸ hmem)).1

/-- The base confidence after steps 1-3 is 0 or one of the matcher
values. -/
theorem classifyCore_base (text : String) :
    baseConfidence text = 0 ∨ baseConfidence text = 1 ∨ baseConfidence text = 0.95 ∨
      baseConfidence text = 0.85 ∨ baseConfidence text = 0.7 ∨ baseConfidence text = 0.6 := by
  unfold baseConfidence classifyCore
  rcases hm : candidatesOf text with - | ⟨c, - | ⟨c2, r2⟩⟩
  · dsimp only
    split <;> simp
  · dsimp only
    exact Or.inr (mem_candidatesOf text (hm.symm ▸ List.mem_cons_self c [])).2
  · dsimp only
    have hmem := pyMaxBy_mem (totalKey text) c (c2 :: r2)
    exact Or.inr (mem_candidatesOf text (hm.symm ▸ hmem)).2

/-- Adding multiples of 1/100 stays a multiple of 1/100. -/
theorem centile_add {a b : ℚ} (ha : Centile a) (hb : Centile b) : Centile (a + b) := by
  obtain ⟨x, rfl⟩ := ha
  obtain ⟨y, rfl⟩ := hb
  exact ⟨x + y, by push_cast; ring⟩

/-- The minimum of two multiples of 1/100 is a multiple of 1/100. -/
theorem centile_min {a b : ℚ} (ha : Centile a) (hb : Centile b) : Centile (min a b) := by
  rcases le_total a b with h | h
  · rwa [min_eq_left h]
  · rwa [min_eq_right h]

/-- On exact multiples of 1/100, two-decimal rounding is the identity. -/
theorem round2_eq_self {q : ℚ} (h : Centile q) : round2 q = q := by
  obtain ⟨z, rfl⟩ := h
  unfold round2
  rw [div_mul_cancel₀ _ (by norm_num : (100 : ℚ) ≠ 0), round_intCast]

/-- The keyword score takes only the values 0, 0.4, 0.6. -/
theorem scoring_cases (text : String) (t : DocumentType) :
    calculate_scoring text t = 0 ∨ calculate_scoring text t = 0.4 ∨
      calculate_scoring text t = 0.6 := by
  unfold calculate_scoring
  rcases Nat.lt_or_ge (foundKeywords text t) 1 with h1 | h1
  · rw [if_neg (by omega), if_neg (by omega)]
    norm_num
  · rcases Nat.lt_or_ge (foundKeywords text t) 2 with h2 | h2
    · rw [if_pos h1, if_neg (by omega)]
      norm_num
    · rw [if_pos h1, if_pos h2]
      norm_num

/-- The keyword score is nonnegative. -/
theorem scoring_nonneg (text : String) (t : DocumentType) :
    0 ≤ calculate_scoring text t := by
  rcases scoring_cases text t with h | h | h <;> rw [h] <;> norm_num

/-- The keyword score is at most 0.6. -/
theorem scoring_le (text : String) (t : DocumentType) :
    calculate_scoring text t ≤ 0.6 := by
  rcases scoring_cases text t with h | h | h <;> rw [h] <;> norm_num

/-- The blend stays nonnegative on nonnegative inputs. -/
theorem blend_nonneg {b kw : ℚ} (hb : 0 ≤ b) (hk : 0 ≤ kw) : 0 ≤ blend b kw := by
  unfold blend
  dsimp only
  have hf : 0 ≤ b * 0.6 + kw := by positivity
  split
  · exact le_min (le_min (by linarith) (by norm_num)) (by norm_num)
  · exact le_min hf (by norm_num)

/-- The blend never exceeds the 0.99 ceiling. -/
theorem blend_le (b kw : ℚ) : blend b kw ≤ 0.99 := by
  unfold blend
  exact min_le_right _ _

/-- On the reachable base and keyword values the blend is an exact
multiple of 1/100. -/
theorem blend_centile {b kw : ℚ}
    (hb : b = 0 ∨ b = 1 ∨ b = 0.95 ∨ b = 0.85 ∨ b = 0.7 ∨ b = 0.6)
    (hk : kw = 0 ∨ kw = 0.4 ∨ kw = 0.6) : Centile (blend b kw) := by
  have hb6 : Centile (b * 0.6) := by
    rcases hb with rfl | rfl | rfl | rfl | rfl | rfl
    · exact ⟨0, by norm_num⟩
    · exact ⟨60, by norm_num⟩
    · exact ⟨57, by norm_num⟩
    · exact ⟨51, by norm_num⟩
    · exact ⟨42, by norm_num⟩
    · exact ⟨36, by norm_num⟩
  have hkc : Centile kw := by
    rcases hk with rfl | rfl | rfl
    · exact ⟨0, by norm_num⟩
    · exact ⟨40, by norm_num⟩
    · exact ⟨60, by norm_num⟩
  have hf : Centile (b * 0.6 + kw) := centile_add hb6 hkc
  unfold blend
  dsimp only
  split
  · exact centile_min (centile_min (centile_add hf ⟨20, by norm_num⟩) ⟨99, by norm_num⟩)
      ⟨99, by norm_num⟩
  · exact centile_min hf ⟨99, by norm_num⟩

/-- The final score is always an exact multiple of 1/100. -/
theorem finalScore_centile (text : String) : Centile (finalScore text) := by
  unfold finalScore
  split
  · exact ⟨0, by norm_num⟩
  · exact blend_centile (classifyCore_base text) (scoring_cases text (detectedType text))

/-- Two-decimal rounding leaves the final score unchanged. -/
theorem round2_finalScore (text : String) :
    round2 (finalScore text) = finalScore text :=
  round2_eq_self (finalScore_centile text)

/-- The final score is nonnegative. -/
theorem finalScore_nonneg (text : String) : 0 ≤ finalScore text := by
  unfold finalScore
  split
  · norm_num
  · refine blend_nonneg ?_ (scoring_nonneg text (detectedType text))
    rcases classifyCore_base text with h | h | h | h | h | h <;> rw [h] <;> norm_num

/-- When a type is detected, the final score respects the 0.99 ceiling. -/
theorem finalScore_le (text : String) (h : detectedType text ≠ DocumentType.unknown) :
    finalScore text ≤ 0.99 := by
  unfold finalScore
  rw [if_neg h]
  exact blend_le _ _

/-- A successful anchored match makes the search succeed. -/
theorem reSearch_isSome_of_matchRun {r : RE} {s : List Char}
    (h : (matchRun r s).isSome = true) : (reSearch r s).isSome = true := by
  cases s with
  | nil =>
    simp only [reSearch]
    cases hm : matchRun r [] with
    | some rest => simp
    | none => rw [hm] at h; simp at h
  | cons c s2 =>
    simp only [reSearch]
    cases hm : matchRun r (c :: s2) with
    | some rest => simp [hm]
    | none => rw [hm] at h; simp at h

/-- A successful anchored match at any position makes the (leftmost)
search succeed. -/
theorem reSearch_isSome_append (r : RE) (pre : List Char) {tail : List Char}
    (h : (matchRun r tail).isSome = true) :
    (reSearch r (pre ++ tail)).isSome = true := by
  induction pre with
  | nil => simpa using reSearch_isSome_of_matchRun h
  | cons c cs ih =>
    rw [List.cons_append]
    simp only [reSearch]
    cases hm : matchRun r (c :: (cs ++ tail)) with
    | some rest => simp [hm]
    | none => exact ih

/-- The Aadhaar pattern matches a spaced `DDDD DDDD DDDD` group anchored
at the start, consuming exactly the group. -/
theorem aadhaar_matchRun (d1 d2 d3 d4 d5 d6 d7 d8 d9 d10 d11 d12 : Char)
    (post : List Char)
    (h1 : digitC d1 = true) (h2 : digitC d2 = true) (h3 : digitC d3 = true)
    (h4 : digitC d4 = true) (h5 : digitC d5 = true) (h6 : digitC d6 = true)
    (h7 : digitC d7 = true) (h8 : digitC d8 = true) (h9 : digitC d9 = true)
    (h10 : digitC d10 = true) (h11 : digitC d11 = true) (h12 : digitC d12 = true) :
    matchRun AADHAAR_PATTERN
      (d1 :: d2 :: d3 :: d4 :: ' ' :: d5 :: d6 :: d7 :: d8 :: ' ' ::
        d9 :: d10 :: d11 :: d12 :: post) = some post := by
  have hws : wsC ' ' = true := rfl
  simp [matchRun, AADHAAR_PATTERN, dig4, reSeq, mtch, Option.orElse,
        h1, h2, h3, h4, h5, h6, h7, h8, h9, h10, h11, h12, hws]

/-- C5 counterexample: the claim asserts that a 12-digit run with
zero spaces must NOT match the Aadhaar matcher; on the concrete input
"123456789012" the matcher does fire (the pattern's `\s?` separators are
optional), refuting the claim as stated. -/
theorem claim_C5_counterexample : (validate_aadhaar "123456789012").1 = true := by
  decide

/-- C5 amended: for every text containing a `DDDD DDDD DDDD` group
with single spaces, the Aadhaar matcher fires with base confidence 1.0
and some identifier; the identifier is the first regex match, verbatim
including its spaces (concrete instances); a 12-digit run with zero
spaces ALSO matches (spaces are optional); and on no match the matcher
returns `(false, none, 0.0)`. -/
theorem claim_C5 :
    (∀ (pre post : List Char) (d1 d2 d3 d4 d5 d6 d7 d8 d9 d10 d11 d12 : Char),
      digitC d1 = true → digitC d2 = true → digitC d3 = true → digitC d4 = true →
      digitC d5 = true → digitC d6 = true → digitC d7 = true → digitC d8 = true →
      digitC d9 = true → digitC d10 = true → digitC d11 = true → digitC d12 = true →
      (validate_aadhaar (String.mk (pre ++
        d1 :: d2 :: d3 :: d4 :: ' ' :: d5 :: d6 :: d7 :: d8 :: ' ' ::
        d9 :: d10 :: d11 :: d12 :: post))).1 = true ∧
      (validate_aadhaar (String.mk (pre ++
        d1 :: d2 :: d3 :: d4 :: ' ' :: d5 :: d6 :: d7 :: d8 :: ' ' ::
        d9 :: d10 :: d11 :: d12 :: post))).2.2 = 1 ∧
      (validate_aadhaar (String.mk (pre ++
        d1 :: d2 :: d3 :: d4 :: ' ' :: d5 :: d6 :: d7 :: d8 :: ' ' ::
        d9 :: d10 :: d11 :: d12 :: post))).2.1.isSome = true) ∧
    validate_aadhaar "ab 1234 5678 9123 cd" = (true, some "1234 5678 9123", 1) ∧
    validate_aadhaar "1111 2222 3333 and 4444 5555 6666" =
      (true, some "1111 2222 3333", 1) ∧
    validate_aadhaar "123456789012" = (true, some "123456789012", 1) ∧
    ∀ text : String, reSearch AADHAAR_PATTERN text.data = none →
      validate_aadhaar text = (false, none, 0) := by
  refine ⟨?_, by decide, by decide, by decide, ?_⟩
  · intro pre post d1 d2 d3 d4 d5 d6 d7 d8 d9 d10 d11 d12
    intro h1 h2 h3 h4 h5 h6 h7 h8 h9 h10 h11 h12
    have hrun := aadhaar_matchRun d1 d2 d3 d4 d5 d6 d7 d8 d9 d10 d11 d12 post
      h1 h2 h3 h4 h5 h6 h7 h8 h9 h10 h11 h12
    have hsome : (matchRun AADHAAR_PATTERN
        (d1 :: d2 :: d3 :: d4 :: ' ' :: d5 :: d6 :: d7 :: d8 :: ' ' ::
          d9 :: d10 :: d11 :: d12 :: post)).isSome = true := by
      rw [hrun]; rfl
    have hsearch : (reSearch AADHAAR_PATTERN (String.mk (pre ++
        d1 :: d2 :: d3 :: d4 :: ' ' :: d5 :: d6 :: d7 :: d8 :: ' ' ::
        d9 :: d10 :: d11 :: d12 :: post)).data).isSome = true :=
      reSearch_isSome_append AADHAAR_PATTERN pre hsome
    obtain ⟨m, hmm⟩ := Option.isSome_iff_exists.mp hsearch
    unfold validate_aadhaar
    rw [hmm]
    simp
  · intro text hnone
    unfold validate_aadhaar
    rw [hnone]

/-- C5 witness: the amended theorem applied at a concrete spaced
group and at a concrete non-matching text. -/
theorem claim_C5_witness :
    ((validate_aadhaar (String.mk (['x'] ++
      '1' :: '2' :: '3' :: '4' :: ' ' :: '5' :: '6' :: '7' :: '8' :: ' ' ::
      '9' :: '0' :: '1' :: '2' :: []))).1 = true ∧
     (validate_aadhaar (String.mk (['x'] ++
      '1' :: '2' :: '3' :: '4' :: ' ' :: '5' :: '6' :: '7' :: '8' :: ' ' ::
      '9' :: '0' :: '1' :: '2' :: []))).2.2 = 1 ∧
     (validate_aadhaar (String.mk (['x'] ++
      '1' :: '2' :: '3' :: '4' :: ' ' :: '5' :: '6' :: '7' :: '8' :: ' ' ::
      '9' :: '0' :: '1' :: '2' :: []))).2.1.isSome = true) ∧
    validate_aadhaar "no digits here" = (false, none, 0) :=
  ⟨claim_C5.1 ['x'] [] '1' '2' '3' '4' '5' '6' '7' '8' '9' '0' '1' '2'
      (by decide) (by decide) (by decide) (by decide) (by decide) (by decide)
      (by decide) (by decide) (by decide) (by decide) (by decide) (by decide),
   claim_C5.2.2.2.2 "no digits here" (by decide)⟩

/-- C7: the keyword scorer lower-cases the text, counts distinct
matching keyword patterns, and maps the count through the saturating
step function 0 ↦ 0.0, 1 ↦ 0.4, ≥2 ↦ 0.6. -/
theorem claim_C7 (text : String) (t : DocumentType) :
    (foundKeywords text t = 0 → calculate_scoring text t = 0) ∧
    (foundKeywords text t = 1 → calculate_scoring text t = 0.4) ∧
    (2 ≤ foundKeywords text t → calculate_scoring text t = 0.6) := by
  unfold calculate_scoring
  refine ⟨?_, ?_, ?_⟩ <;> intro h
  · rw [if_neg (by omega), if_neg (by omega)]
    norm_num
  · rw [if_pos (by omega), if_neg (by omega)]
    norm_num
  · rw [if_pos (by omega), if_pos h]
    norm_num

/-- C7 witness: the step thresholds at concrete inputs: zero hits,
exactly one hit, and two hits. -/
theorem claim_C7_witness :
    (foundKeywords "" DocumentType.pan = 0 ∧
      calculate_scoring "" DocumentType.pan = 0) ∧
    (foundKeywords "aadhaar" DocumentType.aadhaar = 1 ∧
      calculate_scoring "aadhaar" DocumentType.aadhaar = 0.4) ∧
    (2 ≤ foundKeywords "income tax department govt of india" DocumentType.pan ∧
      calculate_scoring "income tax department govt of india" DocumentType.pan = 0.6) :=
  ⟨⟨by decide, (claim_C7 "" DocumentType.pan).1 (by decide)⟩,
   ⟨by decide, (claim_C7 "aadhaar" DocumentType.aadhaar).2.1 (by decide)⟩,
   ⟨by decide, (claim_C7 "income tax department govt of india" DocumentType.pan).2.2
      (by decide)⟩⟩

/-- C6: the driving-licence matcher follows the specification's
decision table, first matching row winning: numeric+indicator 0.95;
numeric+context word 0.85; bare numeric 0.70; no numeric but ≥2 distinct
indicator hits (true, none, 0.60); otherwise (false, none, 0.0). -/
theorem claim_C6 (text : String) : validate_dl text = dl_decision_table text := by
  unfold validate_dl dl_decision_table
  dsimp only
  have hany := any_iff_filter_pos dl_keyword_indicators
    (fun p => (reSearch p (lowerStr text)).isSome)
  split
  · by_cases hkw : dl_keyword_indicators.any
        (fun p => (reSearch p (lowerStr text)).isSome) = true
    · rw [if_pos hkw, if_pos (hany.mp hkw)]
    · rw [if_neg hkw, if_neg (fun hh => hkw (hany.mpr hh))]
  · by_cases h2 : 2 ≤ (dl_keyword_indicators.filter
        (fun p => (reSearch p (lowerStr text)).isSome)).length
    · have hkw : dl_keyword_indicators.any
          (fun p => (reSearch p (lowerStr text)).isSome) = true :=
        hany.mpr (by omega)
      rw [if_pos h2, if_pos (by simp [hkw, h2])]
    · rw [if_neg h2, if_neg (by simp [h2])]

/-- C2: with a detected type the reported confidence lies in
[0.0, 0.99] and is never 1.00; with UNKNOWN it is exactly 0.0, the
extracted fields hold no id_number, and the failure reason is
populated. -/
theorem claim_C2 (text : String) :
    ((classify_and_verify text).detected_document_type ≠ DocumentType.unknown →
      0 ≤ (classify_and_verify text).confidence_score ∧
      (classify_and_verify text).confidence_score ≤ 0.99 ∧
      (classify_and_verify text).confidence_score ≠ 1) ∧
    ((classify_and_verify text).detected_document_type = DocumentType.unknown →
      (classify_and_verify text).confidence_score = 0 ∧
      (classify_and_verify text).extracted_fields.lookup "id_number" = none ∧
      (classify_and_verify text).failure_reason.isSome = true) := by
  have hconf : (classify_and_verify text).confidence_score = finalScore text :=
    round2_finalScore text
  constructor
  · intro h
    have hdt : detectedType text ≠ DocumentType.unknown := h
    rw [hconf]
    have hle := finalScore_le text hdt
    refine ⟨finalScore_nonneg text, hle, ?_⟩
    intro he
    rw [he] at hle
    norm_num at hle
  · intro h
    have hdt : detectedType text = DocumentType.unknown := h
    have hfs : finalScore text = 0 := by
      unfold finalScore
      rw [if_pos hdt]
    have hcc := classifyCore_unknown text hdt
    refine ⟨by rw [hconf, hfs], ?_, ?_⟩
    · show (extractedFields (extractedId text)).lookup "id_number" = none
      have hid : extractedId text = none := by
        unfold extractedId
        rw [hcc]
      rw [hid]
      rfl
    · show (thresholdDecision (detectedType text) (finalScore text)).2.isSome = true
      rw [hdt]
      unfold thresholdDecision
      rw [if_pos rfl]
      rfl

/-- C2 witness: both branches at concrete inputs ("aadhaar" is
classified via the keyword fallback; the empty string stays UNKNOWN). -/
theorem claim_C2_witness :
    (0 ≤ (classify_and_verify "aadhaar").confidence_score ∧
     (classify_and_verify "aadhaar").confidence_score ≤ 0.99 ∧
     (classify_and_verify "aadhaar").confidence_score ≠ 1) ∧
    ((classify_and_verify "").confidence_score = 0 ∧
     (classify_and_verify "").extracted_fields.lookup "id_number" = none ∧
     (classify_and_verify "").failure_reason.isSome = true) :=
  ⟨(claim_C2 "aadhaar").1 (by decide), (claim_C2 "").2 (by decide)⟩

/-- C3: UNKNOWN rejects with the fixed reason; otherwise the score
is rounded once (rounding is the identity on it), the reported score is
that rounded value, the decision verifies exactly when the reported
score reaches the LOW threshold (so both the [LOW, HIGH) band and ≥ HIGH
verify), rejects exactly below it, and the too-low reason carries the
reported (rounded) score and the detected type. -/
theorem claim_C3 (text : String) :
    ((classify_and_verify text).detected_document_type = DocumentType.unknown →
      (classify_and_verify text).status = VerificationStatus.rejected ∧
      (classify_and_verify text).failure_reason = some Reason.unidentified) ∧
    ((classify_and_verify text).detected_document_type ≠ DocumentType.unknown →
      round2 (finalScore text) = finalScore text ∧
      (classify_and_verify text).confidence_score = round2 (finalScore text) ∧
      ((classify_and_verify text).status = VerificationStatus.verified ↔
        CONFIDENCE_THRESHOLD_LOW ≤ (classify_and_verify text).confidence_score) ∧
      ((classify_and_verify text).status = VerificationStatus.rejected ↔
        (classify_and_verify text).confidence_score < CONFIDENCE_THRESHOLD_LOW) ∧
      ((classify_and_verify text).confidence_score < CONFIDENCE_THRESHOLD_LOW →
        (classify_and_verify text).failure_reason =
          some (Reason.tooLow ((classify_and_verify text).confidence_score)
            ((classify_and_verify text).detected_document_type)))) := by
  constructor
  · intro h
    have hdt : detectedType text = DocumentType.unknown := h
    constructor
    · show (thresholdDecision (detectedType text) (finalScore text)).1 = _
      rw [hdt]
      unfold thresholdDecision
      rw [if_pos rfl]
    · show (thresholdDecision (detectedType text) (finalScore text)).2 = _
      rw [hdt]
      unfold thresholdDecision
      rw [if_pos rfl]
  · intro h
    have hdt : detectedType text ≠ DocumentType.unknown := h
    have hr2 := round2_finalScore text
    have hconf : (classify_and_verify text).confidence_score = finalScore text := hr2
    have hstat : (classify_and_verify text).status =
        (thresholdDecision (detectedType text) (finalScore text)).1 := rfl
    have hreas : (classify_and_verify text).failure_reason =
        (thresholdDecision (detectedType text) (finalScore text)).2 := rfl
    unfold thresholdDecision at hstat hreas
    rw [if_neg hdt] at hstat hreas
    by_cases hH : CONFIDENCE_THRESHOLD_HIGH ≤ finalScore text
    · rw [if_pos hH] at hstat hreas
      have hL : CONFIDENCE_THRESHOLD_LOW ≤ finalScore text :=
        le_trans (by norm_num [CONFIDENCE_THRESHOLD_LOW, CONFIDENCE_THRESHOLD_HIGH]) hH
      refine ⟨hr2, rfl, ?_, ?_, ?_⟩
      · rw [hconf, hstat]
        exact ⟨fun _ => hL, fun _ => rfl⟩
      · rw [hconf, hstat]
        exact ⟨fun hx => absurd hx (by simp), fun hx => absurd hx (not_lt.mpr hL)⟩
      · rw [hconf]
        exact fun hlt => absurd hlt (not_lt.mpr hL)
    · rw [if_neg hH] at hstat hreas
      by_cases hL : CONFIDENCE_THRESHOLD_LOW ≤ finalScore text
      · rw [if_pos hL] at hstat hreas
        refine ⟨hr2, rfl, ?_, ?_, ?_⟩
        · rw [hconf, hstat]
          exact ⟨fun _ => hL, fun _ => rfl⟩
        · rw [hconf, hstat]
          exact ⟨fun hx => absurd hx (by simp), fun hx => absurd hx (not_lt.mpr hL)⟩
        · rw [hconf]
          exact fun hlt => absurd hlt (not_lt.mpr hL)
      · rw [if_neg hL] at hstat hreas
        refine ⟨hr2, rfl, ?_, ?_, ?_⟩
        · rw [hconf, hstat]
          exact ⟨fun hx => absurd hx (by simp), fun hge => absurd hge hL⟩
        · rw [hconf, hstat]
          exact ⟨fun _ => not_le.mp hL, fun _ => rfl⟩
        · intro _
          exact hreas

/-- C3 witness: the UNKNOWN branch at the empty string and the
detected branch at "aadhaar" (fallback-classified, rejected as too
low). -/
theorem claim_C3_witness :
    ((classify_and_verify "").status = VerificationStatus.rejected ∧
     (classify_and_verify "").failure_reason = some Reason.unidentified) ∧
    (round2 (finalScore "aadhaar") = finalScore "aadhaar" ∧
     (classify_and_verify "aadhaar").confidence_score = round2 (finalScore "aadhaar") ∧
     ((classify_and_verify "aadhaar").status = VerificationStatus.verified ↔
       CONFIDENCE_THRESHOLD_LOW ≤ (classify_and_verify "aadhaar").confidence_score) ∧
     ((classify_and_verify "aadhaar").status = VerificationStatus.rejected ↔
       (classify_and_verify "aadhaar").confidence_score < CONFIDENCE_THRESHOLD_LOW) ∧
     ((classify_and_verify "aadhaar").confidence_score < CONFIDENCE_THRESHOLD_LOW →
       (classify_and_verify "aadhaar").failure_reason =
         some (Reason.tooLow ((classify_and_verify "aadhaar").confidence_score)
           ((classify_and_verify "aadhaar").detected_document_type)))) :=
  ⟨(claim_C3 "").1 (by decide), (claim_C3 "aadhaar").2 (by decide)⟩

/-- C1: with a detected type, the final confidence is
`base*0.6 + keyword_score` (keyword score at full weight), boosted by
0.2 capped at 0.99 when `base ≥ 0.8` and the keyword score is positive,
then capped at 0.99; and the end-to-end PAN example produces
verified/pan/"ABCDE1234F"/0.99. -/
theorem claim_C1 :
    (∀ text : String, detectedType text ≠ DocumentType.unknown →
      (classify_and_verify text).confidence_score =
        min (if 0.8 ≤ baseConfidence text ∧
                0 < calculate_scoring text (detectedType text) then
              min (baseConfidence text * 0.6 +
                calculate_scoring text (detectedType text) + 0.2) 0.99
             else baseConfidence text * 0.6 +
                calculate_scoring text (detectedType text))
          0.99) ∧
    (classify_and_verify
      "Income Tax Department GOVT OF INDIA Permanent Account Number ABCDE1234F").status =
      VerificationStatus.verified ∧
    (classify_and_verify
      "Income Tax Department GOVT OF INDIA Permanent Account Number ABCDE1234F").detected_document_type =
      DocumentType.pan ∧
    (classify_and_verify
      "Income Tax Department GOVT OF INDIA Permanent Account Number ABCDE1234F").extracted_fields.lookup
      "id_number" = some "ABCDE1234F" ∧
    (classify_and_verify
      "Income Tax Department GOVT OF INDIA Permanent Account Number ABCDE1234F").confidence_score =
      0.99 := by
  refine ⟨?_, by decide, by decide, by decide, by decide⟩
  intro text h
  have hc : (classify_and_verify text).confidence_score = finalScore text :=
    round2_finalScore text
  rw [hc]
  unfold finalScore
  rw [if_neg h]
  rfl

/-- C1 witness: the blend formula instantiated at a concrete
fallback-classified text. -/
theorem claim_C1_witness :
    (classify_and_verify "aadhaar").confidence_score =
      min (if 0.8 ≤ baseConfidence "aadhaar" ∧
              0 < calculate_scoring "aadhaar" (detectedType "aadhaar") then
            min (baseConfidence "aadhaar" * 0.6 +
              calculate_scoring "aadhaar" (detectedType "aadhaar") + 0.2) 0.99
           else baseConfidence "aadhaar" * 0.6 +
              calculate_scoring "aadhaar" (detectedType "aadhaar"))
        0.99 :=
  claim_C1.1 "aadhaar" (by decide)

/-- C4: with two or more candidates, the engine adopts (type,
identifier and original base confidence alike) the candidate whose
blended total `base*0.6 + keyword*0.4` is maximal, the first such in
evaluation order Aadhaar, PAN, DL on exact ties; concretely, a text with
both Aadhaar- and PAN-shaped substrings and only PAN keywords selects
PAN although both matchers report base 1.0. -/
theorem claim_C4 :
    (∀ (text : String) (c c2 : Cand) (rest : List Cand),
      candidatesOf text = c :: c2 :: rest →
      detectedType text = (classifyCore text).1 ∧
      baseConfidence text = (classifyCore text).2.2 ∧
      ∃ pre post, candidatesOf text = pre ++ classifyCore text :: post ∧
        (∀ d ∈ candidatesOf text, totalKey text d ≤ totalKey text (classifyCore text)) ∧
        (∀ d ∈ pre, totalKey text d < totalKey text (classifyCore text))) ∧
    candidatesOf "Income Tax Department 1234 5678 9123 ABCDE1234F" =
      [(DocumentType.aadhaar, some "1234 5678 9123", 1),
       (DocumentType.pan, some "ABCDE1234F", 1)] ∧
    validate_aadhaar "Income Tax Department 1234 5678 9123 ABCDE1234F" =
      (true, some "1234 5678 9123", 1) ∧
    validate_pan "Income Tax Department 1234 5678 9123 ABCDE1234F" =
      (true, some "ABCDE1234F", 1) ∧
    calculate_scoring "Income Tax Department 1234 5678 9123 ABCDE1234F"
      DocumentType.aadhaar = 0 ∧
    calculate_scoring "Income Tax Department 1234 5678 9123 ABCDE1234F"
      DocumentType.pan = 0.4 ∧
    detectedType "Income Tax Department 1234 5678 9123 ABCDE1234F" = DocumentType.pan ∧
    baseConfidence "Income Tax Department 1234 5678 9123 ABCDE1234F" = 1 := by
  refine ⟨?_, by decide, by decide, by decide, by decide, by decide, by decide, by decide⟩
  intro text c c2 rest hm
  have hcc : classifyCore text = pyMaxBy (totalKey text) c (c2 :: rest) := by
    unfold classifyCore
    rw [hm]
  obtain ⟨hall, pre, post, hdec, hpre⟩ := pyMaxBy_spec (totalKey text) c (c2 :: rest)
  refine ⟨rfl, rfl, pre, post, ?_, ?_, ?_⟩
  · rw [hm, hcc]
    exact hdec
  · intro d hd
    rw [hm] at hd
    rw [hcc]
    exact hall d hd
  · intro d hd
    rw [hcc]
    exact hpre d hd

/-- C4 witness: the disambiguation characterization applied to the
concrete two-candidate Aadhaar/PAN text. -/
theorem claim_C4_witness :
    detectedType "Income Tax Department 1234 5678 9123 ABCDE1234F" =
      (classifyCore "Income Tax Department 1234 5678 9123 ABCDE1234F").1 ∧
    baseConfidence "Income Tax Department 1234 5678 9123 ABCDE1234F" =
      (classifyCore "Income Tax Department 1234 5678 9123 ABCDE1234F").2.2 ∧
    ∃ pre post,
      candidatesOf "Income Tax Department 1234 5678 9123 ABCDE1234F" =
        pre ++ classifyCore "Income Tax Department 1234 5678 9123 ABCDE1234F" :: post ∧
      (∀ d ∈ candidatesOf "Income Tax Department 1234 5678 9123 ABCDE1234F",
        totalKey "Income Tax Department 1234 5678 9123 ABCDE1234F" d ≤
          totalKey "Income Tax Department 1234 5678 9123 ABCDE1234F"
            (classifyCore "Income Tax Department 1234 5678 9123 ABCDE1234F")) ∧
      (∀ d ∈ pre,
        totalKey "Income Tax Department 1234 5678 9123 ABCDE1234F" d <
          totalKey "Income Tax Department 1234 5678 9123 ABCDE1234F"
            (classifyCore "Income Tax Department 1234 5678 9123 ABCDE1234F")) :=
  claim_C4.1 "Income Tax Department 1234 5678 9123 ABCDE1234F"
    (DocumentType.aadhaar, some "1234 5678 9123", 1)
    (DocumentType.pan, some "ABCDE1234F", 1) [] (by decide)

/-- C8: with no candidates, the keyword fallback scores all three
types, picks the maximum in enumeration order Aadhaar, PAN, DL with the
first maximal type winning ties (so a later type is picked only when
strictly better than every earlier one), adopts it with no identifier
and base confidence 0 exactly when its score is positive, and stays
UNKNOWN when all scores are 0 — in particular on the empty string. -/
theorem claim_C8 :
    (∀ text : String, candidatesOf text = [] →
      (calculate_scoring text DocumentType.aadhaar ≤ (fallbackPick text).2 ∧
       calculate_scoring text DocumentType.pan ≤ (fallbackPick text).2 ∧
       calculate_scoring text DocumentType.driving_license ≤ (fallbackPick text).2) ∧
      (fallbackPick text).2 = calculate_scoring text (fallbackPick text).1 ∧
      ((fallbackPick text).1 = DocumentType.pan →
        calculate_scoring text DocumentType.aadhaar < (fallbackPick text).2) ∧
      ((fallbackPick text).1 = DocumentType.driving_license →
        calculate_scoring text DocumentType.aadhaar < (fallbackPick text).2 ∧
        calculate_scoring text DocumentType.pan < (fallbackPick text).2) ∧
      (0 < (fallbackPick text).2 →
        classifyCore text = ((fallbackPick text).1, none, 0)) ∧
      ((fallbackPick text).2 = 0 → detectedType text = DocumentType.unknown)) ∧
    detectedType "" = DocumentType.unknown := by
  refine ⟨?_, by decide⟩
  intro text hm
  have hcc : classifyCore text =
      (if 0 < (fallbackPick text).2 then ((fallbackPick text).1, none, 0)
       else (DocumentType.unknown, none, 0)) := by
    unfold classifyCore
    rw [hm]
  have H : (calculate_scoring text DocumentType.aadhaar ≤ (fallbackPick text).2 ∧
       calculate_scoring text DocumentType.pan ≤ (fallbackPick text).2 ∧
       calculate_scoring text DocumentType.driving_license ≤ (fallbackPick text).2) ∧
      ((fallbackPick text).1 = DocumentType.pan →
        calculate_scoring text DocumentType.aadhaar < (fallbackPick text).2) ∧
      ((fallbackPick text).1 = DocumentType.driving_license →
        calculate_scoring text DocumentType.aadhaar < (fallbackPick text).2 ∧
        calculate_scoring text DocumentType.pan < (fallbackPick text).2) := by
    simp only [fallbackPick, pyMaxBy]
    dsimp only
    by_cases h1 : calculate_scoring text DocumentType.aadhaar <
        calculate_scoring text DocumentType.pan
    · rw [if_pos h1]
      dsimp only
      by_cases h2 : calculate_scoring text DocumentType.pan <
          calculate_scoring text DocumentType.driving_license
      · rw [if_pos h2]
        refine ⟨⟨by linarith, by linarith, le_refl _⟩, ?_, ?_⟩ <;> intro hx
        · simp at hx
        · exact ⟨by linarith, h2⟩
      · rw [if_neg h2]
        refine ⟨⟨le_of_lt h1, le_refl _, le_of_not_lt h2⟩, fun _ => h1, ?_⟩
        intro hx
        simp at hx
    · rw [if_neg h1]
      dsimp only
      by_cases h2 : calculate_scoring text DocumentType.aadhaar <
          calculate_scoring text DocumentType.driving_license
      · rw [if_pos h2]
        refine ⟨⟨le_of_lt h2, ?_, le_refl _⟩, ?_, ?_⟩
        · exact le_trans (le_of_not_lt h1) (le_of_lt h2)
        · intro hx
          simp at hx
        · exact fun _ => ⟨h2, lt_of_le_of_lt (le_of_not_lt h1) h2⟩
      · rw [if_neg h2]
        refine ⟨⟨le_refl _, le_of_not_lt h1, le_of_not_lt h2⟩, ?_, ?_⟩ <;> intro hx
        · simp at hx
        · simp at hx
  refine ⟨H.1, fallbackPick_score text, H.2.1, H.2.2, ?_, ?_⟩
  · intro h0
    rw [hcc, if_pos h0]
  · intro h0
    unfold detectedType
    rw [hcc, if_neg (by rw [h0]; norm_num)]

/-- C8 witness: the fallback characterization applied to a text on
which no matcher fires ("aadhaar" has one Aadhaar keyword hit and no
identifier-shaped substring). -/
theorem claim_C8_witness :
    (calculate_scoring "aadhaar" DocumentType.aadhaar ≤ (fallbackPick "aadhaar").2 ∧
     calculate_scoring "aadhaar" DocumentType.pan ≤ (fallbackPick "aadhaar").2 ∧
     calculate_scoring "aadhaar" DocumentType.driving_license ≤ (fallbackPick "aadhaar").2) ∧
    (fallbackPick "aadhaar").2 = calculate_scoring "aadhaar" (fallbackPick "aadhaar").1 ∧
    ((fallbackPick "aadhaar").1 = DocumentType.pan →
      calculate_scoring "aadhaar" DocumentType.aadhaar < (fallbackPick "aadhaar").2) ∧
    ((fallbackPick "aadhaar").1 = DocumentType.driving_license →
      calculate_scoring "aadhaar" DocumentType.aadhaar < (fallbackPick "aadhaar").2 ∧
      calculate_scoring "aadhaar" DocumentType.pan < (fallbackPick "aadhaar").2) ∧
    (0 < (fallbackPick "aadhaar").2 →
      classifyCore "aadhaar" = ((fallbackPick "aadhaar").1, none, 0)) ∧
    ((fallbackPick "aadhaar").2 = 0 →
      detectedType "aadhaar" = DocumentType.unknown) :=
  claim_C8.1 "aadhaar" (by decide)

/-- C9: the two engine copies are behaviorally divergent: on the
concrete Aadhaar+PAN text the `src/OCR` engine disambiguates to PAN with
confidence 0.99, while the short-circuiting `src/services/ocr-service`
engine stops at Aadhaar with confidence 0.60. -/
theorem claim_C9 :
    (classify_and_verify
      "Income Tax Department 1234 5678 9123 ABCDE1234F").detected_document_type =
        DocumentType.pan ∧
    (classify_and_verify
      "Income Tax Department 1234 5678 9123 ABCDE1234F").confidence_score = 0.99 ∧
    (classify_and_verify2
      "Income Tax Department 1234 5678 9123 ABCDE1234F").detected_document_type =
        DocumentType.aadhaar ∧
    (classify_and_verify2
      "Income Tax Department 1234 5678 9123 ABCDE1234F").confidence_score = 0.6 ∧
    classify_and_verify "Income Tax Department 1234 5678 9123 ABCDE1234F" ≠
      classify_and_verify2 "Income Tax Department 1234 5678 9123 ABCDE1234F" := by
  refine ⟨by decide, by decide, by decide, by decide, by decide⟩

/-- Exactly one keyword hit scores 0.4. -/
theorem scoring_hits_one (text : String) (t : DocumentType)
    (h : foundKeywords text t = 1) : calculate_scoring text t = 0.4 := by
  unfold calculate_scoring
  rw [if_pos (by omega), if_neg (by omega)]
  norm_num

/-- Two or more keyword hits score 0.6. -/
theorem scoring_hits_two (text : String) (t : DocumentType)
    (h : 2 ≤ foundKeywords text t) : calculate_scoring text t = 0.6 := by
  unfold calculate_scoring
  rw [if_pos (by omega), if_pos h]
  norm_num

/-- A positive keyword score means at least one hit. -/
theorem hits_pos_of_scoring_pos (text : String) (t : DocumentType)
    (h : 0 < calculate_scoring text t) : 1 ≤ foundKeywords text t := by
  by_contra hn
  have h0 : foundKeywords text t = 0 := by omega
  unfold calculate_scoring at h
  rw [if_neg (by omega), if_neg (by omega)] at h
  norm_num at h

/-- C10: a fallback-classified text (no matcher fired, best keyword
score positive) gets exactly the best type's keyword score as its
confidence — the base is 0 and the boost cannot apply — so under the
default thresholds it verifies exactly when that type has at least two
distinct keyword hits, is rejected with the too-low reason on exactly
one hit, and can never reach the HIGH threshold. -/
theorem claim_C10 (text : String) (hm : candidatesOf text = [])
    (hpos : 0 < (fallbackPick text).2) :
    (classify_and_verify text).confidence_score =
      calculate_scoring text (fallbackPick text).1 ∧
    ((classify_and_verify text).status = VerificationStatus.verified ↔
      2 ≤ foundKeywords text (fallbackPick text).1) ∧
    (foundKeywords text (fallbackPick text).1 = 1 →
      (classify_and_verify text).status = VerificationStatus.rejected ∧
      (classify_and_verify text).failure_reason =
        some (Reason.tooLow 0.4 (fallbackPick text).1)) ∧
    (classify_and_verify text).confidence_score < CONFIDENCE_THRESHOLD_HIGH := by
  have hcc : classifyCore text = ((fallbackPick text).1, none, 0) := by
    unfold classifyCore
    rw [hm]
    dsimp only
    rw [if_pos hpos]
  have hdt : detectedType text = (fallbackPick text).1 := by
    unfold detectedType
    rw [hcc]
  have hb0 : baseConfidence text = 0 := by
    unfold baseConfidence
    rw [hcc]
  have hne : detectedType text ≠ DocumentType.unknown := by
    rw [hdt]
    rcases fallbackPick_type text with h | h | h <;> rw [h] <;> simp
  have hkw : 0 < calculate_scoring text (fallbackPick text).1 := by
    rw [← fallbackPick_score text]
    exact hpos
  have hfs : finalScore text = calculate_scoring text (fallbackPick text).1 := by
    unfold finalScore
    rw [if_neg hne, hb0, hdt]
    unfold blend
    dsimp only
    rw [if_neg (by rintro ⟨h8, -⟩; norm_num at h8)]
    rw [min_eq_left (by
      have := scoring_le text (fallbackPick text).1
      linarith)]
    ring
  have hconf : (classify_and_verify text).confidence_score = finalScore text :=
    round2_finalScore text
  have hstat : (classify_and_verify text).status =
      (thresholdDecision (detectedType text) (finalScore text)).1 := rfl
  have hreas : (classify_and_verify text).failure_reason =
      (thresholdDecision (detectedType text) (finalScore text)).2 := rfl
  unfold thresholdDecision at hstat hreas
  rw [if_neg hne] at hstat hreas
  have h1le := hits_pos_of_scoring_pos text (fallbackPick text).1 hkw
  rcases Nat.lt_or_ge (foundKeywords text (fallbackPick text).1) 2 with h2 | h2
  · -- exactly one hit: score 0.4, rejected
    have hone : foundKeywords text (fallbackPick text).1 = 1 := by omega
    have hsc := scoring_hits_one text (fallbackPick text).1 hone
    rw [hsc] at hfs
    rw [if_neg (by rw [hfs]; norm_num [CONFIDENCE_THRESHOLD_HIGH]),
        if_neg (by rw [hfs]; norm_num [CONFIDENCE_THRESHOLD_LOW])] at hstat hreas
    refine ⟨by rw [hconf, hfs, hsc], ?_, ?_, ?_⟩
    · rw [hstat]
      exact ⟨fun hx => absurd hx (by simp), fun hx => by omega⟩
    · intro _
      refine ⟨hstat, ?_⟩
      rw [hreas, hfs]
      have : round2 (0.4 : ℚ) = 0.4 := round2_eq_self ⟨40, by norm_num⟩
      rw [this, hdt]
    · rw [hconf, hfs]
      norm_num [CONFIDENCE_THRESHOLD_HIGH]
  · -- at least two hits: score 0.6, verified
    have hsc := scoring_hits_two text (fallbackPick text).1 h2
    rw [hsc] at hfs
    rw [if_neg (by rw [hfs]; norm_num [CONFIDENCE_THRESHOLD_HIGH]),
        if_pos (by rw [hfs]; norm_num [CONFIDENCE_THRESHOLD_LOW])] at hstat hreas
    refine ⟨by rw [hconf, hfs, hsc], ?_, ?_, ?_⟩
    · rw [hstat]
      exact ⟨fun _ => h2, fun _ => rfl⟩
    · intro hone
      omega
    · rw [hconf, hfs]
      norm_num [CONFIDENCE_THRESHOLD_HIGH]

/-- C10 witness: a fallback-classified DL text with two or more
keyword hits, verified at confidence 0.6. -/
theorem claim_C10_witness :
    (classify_and_verify "Transport Department Valid Till").confidence_score =
      calculate_scoring "Transport Department Valid Till"
        (fallbackPick "Transport Department Valid Till").1 ∧
    ((classify_and_verify "Transport Department Valid Till").status =
        VerificationStatus.verified ↔
      2 ≤ foundKeywords "Transport Department Valid Till"
        (fallbackPick "Transport Department Valid Till").1) ∧
    (foundKeywords "Transport Department Valid Till"
        (fallbackPick "Transport Department Valid Till").1 = 1 →
      (classify_and_verify "Transport Department Valid Till").status =
        VerificationStatus.rejected ∧
      (classify_and_verify "Transport Department Valid Till").failure_reason =
        some (Reason.tooLow 0.4 (fallbackPick "Transport Department Valid Till").1)) ∧
    (classify_and_verify "Transport Department Valid Till").confidence_score <
      CONFIDENCE_THRESHOLD_HIGH :=
  claim_C10 "Transport Department Valid Till" (by decide) (by decide)

end AIMediator
